import Mathlib

/-!
Verification development for the Personal_AI_chatbot repository.

The Python sources are shallowly embedded: strings are Lean `String`s
(manipulated through their `List Char` data to mirror Python string
methods exactly), dictionaries are association lists in insertion order
(mirroring CPython dict semantics), and the JSON backing file of the
memory store is modelled as an optional file content that is either a
well-formed serialisation of the multi-profile mapping or malformed.
-/

/-- Whitespace as Python `str.strip` / `str.split()` / regex `\s` see it
(ASCII: space, tab, newline, carriage return, vertical tab, form feed). -/
def isPySpace (c : Char) : Bool :=
  c = ' ' || c = '\t' || c = '\n' || c = '\r' || c = Char.ofNat 11 || c = Char.ofNat 12

/-- Python `str.strip()` on a character list: drop whitespace from both ends. -/
def pyStripL (l : List Char) : List Char :=
  ((l.dropWhile isPySpace).reverse.dropWhile isPySpace).reverse

/-- Python `str.strip()`. -/
def pyStrip (s : String) : String :=
  String.mk (pyStripL s.data)

/-- Python `str.lower()` (ASCII inputs). -/
def pyLower (s : String) : String :=
  String.mk (s.data.map Char.toLower)

/-- Python `str.startswith(pat)`. -/
def pyStartsWith (s pat : String) : Bool :=
  pat.data.isPrefixOf s.data

/-- Containment of one character list in another at some offset. -/
def listContains (hay pat : List Char) : Bool :=
  (List.range (hay.length + 1)).any (fun i => pat.isPrefixOf (hay.drop i))

/-- Python substring containment `pat in s`. -/
def pyContains (s pat : String) : Bool :=
  listContains s.data pat.data

/-- Worker for `replaceAllL`, structurally recursive on a fuel that
bounds the length of the remaining input (each step consumes at least one
character, so a fuel equal to the initial length is enough). -/
def replaceAllGo (pat rep : List Char) : Nat → List Char → List Char
  | _, [] => []
  | 0, l => l
  | Nat.succ n, c :: t =>
    if pat ≠ [] ∧ pat.isPrefixOf (c :: t) then
      rep ++ replaceAllGo pat rep n (List.drop (pat.length - 1) t)
    else
      c :: replaceAllGo pat rep n t

/-- Python `str.replace(pat, rep)`: replaces every non-overlapping
occurrence, scanning left to right. -/
def replaceAllL (pat rep s : List Char) : List Char :=
  replaceAllGo pat rep s.length s

/-- Python `str.replace(pat, rep)` on strings. -/
def pyReplace (s pat rep : String) : String :=
  String.mk (replaceAllL pat.data rep.data s.data)

/-- Splitting a character list on every occurrence of a separator
character, keeping empty pieces: Python `str.split(sep)` for a
one-character separator. -/
def splitCharL (sep : Char) : List Char → List (List Char)
  | [] => [[]]
  | c :: t =>
    if c = sep then [] :: splitCharL sep t
    else
      match splitCharL sep t with
      | [] => [[c]]
      | h :: r => (c :: h) :: r

/-- Splitting a character list on every character satisfying a predicate,
keeping empty pieces. -/
def splitPredL (p : Char → Bool) : List Char → List (List Char)
  | [] => [[]]
  | c :: t =>
    if p c then [] :: splitPredL p t
    else
      match splitPredL p t with
      | [] => [[c]]
      | h :: r => (c :: h) :: r

/-- Python `str.split()` with no separator: split on whitespace runs and
drop empty pieces. -/
def pySplitWsL (l : List Char) : List (List Char) :=
  (splitPredL isPySpace l).filter (fun w => w ≠ [])

/-- Python `s.split()` on strings. -/
def pySplitWs (s : String) : List String :=
  (pySplitWsL s.data).map String.mk

/-- The list produced by splitting on a character has one more piece than
the number of separator occurrences (so Python `len(s.split("=")) == 2`
is exactly "s contains exactly one =" ). -/
theorem splitCharL_length (sep : Char) (l : List Char) :
    (splitCharL sep l).length = l.count sep + 1 := by
  induction l with
  | nil => simp [splitCharL]
  | cons c t ih =>
    by_cases h : c = sep
    · subst h
      simp [splitCharL, ih, List.count_cons]
    · simp only [splitCharL, if_neg h]
      cases hs : splitCharL sep t with
      | nil => rw [hs] at ih; simp at ih
      | cons a r =>
        simp only [List.length_cons]
        rw [hs] at ih
        simp only [List.length_cons] at ih
        simp [List.count_cons, h, ih]

section MemoryStoreModel

/-- Association list with string keys, mirroring a CPython `dict`
(insertion order preserved; assignment updates in place or appends). -/
abbrev PyDict (α : Type) := List (String × α)

/-- Python `d.get(k)` as an option. -/
def alistGet {α : Type} (l : PyDict α) (k : String) : Option α :=
  (l.find? (fun p => p.1 = k)).map (fun p => p.2)

/-- Python `d[k] = v`: overwrite in place if the key is present,
otherwise append at the end. -/
def alistSet {α : Type} (l : PyDict α) (k : String) (v : α) : PyDict α :=
  if (l.find? (fun p => p.1 = k)).isSome then
    l.map (fun p => if p.1 = k then (k, v) else p)
  else
    l ++ [(k, v)]

/-- One profile's key→value mapping. -/
abbrev ProfMap := PyDict String

/-- The full multi-profile mapping held in `memories.json`. -/
abbrev AllData := PyDict ProfMap

/-- Content of the backing file: either a well-formed JSON serialisation
of a multi-profile mapping, or malformed text. -/
inductive FileContent where
  | wellFormed (d : AllData)
  | malformed
deriving DecidableEq

/-- Errors raised while loading the backing file (`json.JSONDecodeError`). -/
inductive LoadErr where
  | decodeError
deriving DecidableEq

/-- Python `json.load` on the modelled file content. -/
def jsonLoad : FileContent → Except LoadErr AllData
  | FileContent.wellFormed d => Except.ok d
  | FileContent.malformed => Except.error LoadErr.decodeError

/-- State of `memory_storage.MemoryStore`, together with the backing file
it reads and rewrites (`none` models an absent `memories.json`). -/
structure MemoryStore where
  file : Option FileContent
  profile_id : String
  data : AllData
deriving DecidableEq

namespace MemoryStore

/-- Embeds `MemoryStore._load`: if the file exists, `json.load` it (a
decode error propagates); otherwise return the empty mapping. -/
def loadFile (file : Option FileContent) : Except LoadErr AllData :=
  match file with
  | some c => jsonLoad c
  | none => Except.ok {}

/-- Embeds `MemoryStore.__init__(profile_id)`: `self.data = self._load()`.
A malformed backing file makes construction fail with the decode error. -/
def init (pid : String) (file : Option FileContent) : Except LoadErr MemoryStore :=
  (loadFile file).map (fun d => ⟨file, pid, d⟩)

/-- Embeds `MemoryStore.save`: rewrite the whole file from `self.data`. -/
def save (s : MemoryStore) : MemoryStore :=
  { s with file := some (FileContent.wellFormed s.data) }

/-- Embeds `MemoryStore.set(key, value)`: create the profile entry if
absent, bind `key` to `value` inside it, then `save`. -/
def set (s : MemoryStore) (key value : String) : MemoryStore :=
  let d0 := if (alistGet s.data s.profile_id).isSome then s.data
            else alistSet s.data s.profile_id []
  let pm := (alistGet d0 s.profile_id).getD []
  let d1 := alistSet d0 s.profile_id (alistSet pm key value)
  MemoryStore.save { s with data := d1 }

/-- Embeds `MemoryStore.get_all`: `self.data.get(self.profile_id, {})`. -/
def get_all (s : MemoryStore) : ProfMap :=
  (alistGet s.data s.profile_id).getD []

/-- Embeds `MemoryStore.clear`: reset the profile's mapping to empty and
`save`, but only if the profile has an entry (otherwise do nothing, and
in particular do not touch the file). -/
def clear (s : MemoryStore) : MemoryStore :=
  if (alistGet s.data s.profile_id).isSome then
    MemoryStore.save { s with data := alistSet s.data s.profile_id [] }
  else s

/-- A process restart: construct a fresh store for the same profile from
the current backing file. -/
def restart (s : MemoryStore) : Except LoadErr MemoryStore :=
  init s.profile_id s.file

end MemoryStore

end MemoryStoreModel

section TokenServiceModel

/-- Embeds the constant `ACCESS_TOKEN_EXPIRE_MINUTES = 30` of `main.py`. -/
def ACCESS_TOKEN_EXPIRE_MINUTES : Int := 30

/-- Embeds the expiry computation of `create_access_token(data,
expires_delta)` in minutes relative to `datetime.utcnow()` (`now`).
Python truthiness: `if expires_delta:` is false both for `None` and for a
zero `timedelta`, and in those cases the hard-coded default
`timedelta(minutes=15)` is used. -/
def create_access_token_expire (now : Int) (expires_delta : Option Int) : Int :=
  match expires_delta with
  | some d => if d ≠ 0 then now + d else now + 15
  | none => now + 15

/-- The two failure modes of `get_current_user`'s token discovery:
`credentials_exception` is the 401 "Not authenticated" error, and
`invalid_scheme` the 400 "Invalid authentication scheme" error. -/
inductive AuthFailure where
  | credentials_exception
  | invalid_scheme
deriving DecidableEq

/-- Python truthiness of an optional string (`None` and `""` are falsy). -/
def optTruthy : Option String → Bool
  | none => false
  | some s => s ≠ ""

/-- Embeds the token-discovery part of `get_current_user` (main.py lines
74–99).  `token_dep` is the value injected by `Depends(oauth2_scheme)`
(the transport-level bearer credential, `None` when absent since
`auto_error=False`), `access_token` the cookie of that name, and
`authorization` the raw `Authorization` header (present iff `some`). -/
def get_current_user_token (token_dep access_token authorization : Option String) :
    Except AuthFailure String :=
  -- token = token_dep; if not token and access_token: token = access_token.replace("Bearer ", "")
  let t1 : Option String :=
    if !optTruthy token_dep && optTruthy access_token then
      some (pyReplace (access_token.getD "") "Bearer " "")
    else token_dep
  -- if not token and "authorization" in request.headers: scheme, token = header.strip().split()
  let step3 : Except AuthFailure (Option String) :=
    if !optTruthy t1 && authorization.isSome then
      match pySplitWs (pyStrip (authorization.getD "")) with
      | [scheme, tok] =>
        if pyLower scheme ≠ "bearer" then Except.error AuthFailure.invalid_scheme
        else Except.ok (some tok)
      | _ => Except.error AuthFailure.credentials_exception
    else Except.ok t1
  match step3 with
  | Except.error e => Except.error e
  | Except.ok t2 =>
    -- if not token: raise credentials_exception
    if optTruthy t2 then Except.ok (t2.getD "") else Except.error AuthFailure.credentials_exception

/-- Modelled from the words of the claim (not from the source): the same
three-source precedence, but the cookie value is used after stripping a
single leading `"Bearer "` prefix when present.  Kept for comparison with
`get_current_user_token`. -/
def extract_token_claimed (token_dep access_token authorization : Option String) :
    Except AuthFailure String :=
  if optTruthy token_dep then Except.ok (token_dep.getD "")
  else
    let cand :=
      if optTruthy access_token then
        let c := access_token.getD ""
        if pyStartsWith c "Bearer " then String.mk (c.data.drop 7) else c
      else ""
    if cand ≠ "" then Except.ok cand
    else if authorization.isSome then
      match pySplitWs (pyStrip (authorization.getD "")) with
      | [scheme, tok] =>
        if pyLower scheme ≠ "bearer" then Except.error AuthFailure.invalid_scheme
        else Except.ok tok
      | _ => Except.error AuthFailure.credentials_exception
    else Except.error AuthFailure.credentials_exception

/-- The amended specification of token discovery: as the claim, except
that the cookie value is used after removing every occurrence of the
substring `"Bearer "` (Python `str.replace` semantics), and a cookie
whose value becomes empty after that removal falls through to the
`Authorization` header. -/
def extract_token_amended (token_dep access_token authorization : Option String) :
    Except AuthFailure String :=
  if optTruthy token_dep then Except.ok (token_dep.getD "")
  else
    let cand :=
      if optTruthy access_token then pyReplace (access_token.getD "") "Bearer " ""
      else ""
    if cand ≠ "" then Except.ok cand
    else if authorization.isSome then
      match pySplitWs (pyStrip (authorization.getD "")) with
      | [scheme, tok] =>
        if pyLower scheme ≠ "bearer" then Except.error AuthFailure.invalid_scheme
        else Except.ok tok
      | _ => Except.error AuthFailure.credentials_exception
    else Except.error AuthFailure.credentials_exception

end TokenServiceModel

section RegexModel

/-- Tokens of the tiny regex fragment used by `voice_commands.py`:
literal text, `\s+`, and a final captured `(.+)`. -/
inductive RTok where
  | lit (w : List Char)
  | wsPlus
  | dotPlus
deriving DecidableEq

/-- Backtracking matcher for a pattern made of `RTok`s against a prefix
of the input, mirroring Python `re` semantics (greedy `\s+` with
backtracking; `.` matches any character except a newline).  Returns the
text captured by the final `(.+)` when the pattern matches. -/
def rMatch : List RTok → List Char → Option (List Char)
  | [], _ => some []
  | RTok.lit w :: rest, s =>
    if w.isPrefixOf s then rMatch rest (s.drop w.length) else none
  | RTok.wsPlus :: rest, s =>
    let n := (s.takeWhile isPySpace).length
    ((List.range n).reverse).findSome? (fun j => rMatch rest (s.drop (j + 1)))
  | RTok.dotPlus :: rest, s =>
    match rest with
    | [] =>
      let g := s.takeWhile (fun c => c ≠ '\n')
      if g = [] then none else some g
    | _ :: _ => none

/-- Python `re.search(pattern, text)`: try every start offset from the
left and return the capture of the leftmost match. -/
def reSearch (pat : List RTok) (s : List Char) : Option (List Char) :=
  (List.range (s.length + 1)).findSome? (fun i => rMatch pat (s.drop i))

/-- The pattern `remember\s+(.+)`. -/
def patRemember : List RTok :=
  [RTok.lit "remember".data, RTok.wsPlus, RTok.dotPlus]

/-- The pattern `go\s+to\s+(.+)`. -/
def patGoTo : List RTok :=
  [RTok.lit "go".data, RTok.wsPlus, RTok.lit "to".data, RTok.wsPlus, RTok.dotPlus]

/-- The pattern `show\s+(.+)`. -/
def patShow : List RTok :=
  [RTok.lit "show".data, RTok.wsPlus, RTok.dotPlus]

end RegexModel

section VoiceCommandsModel

/-- One chat transcript entry (`{"role": ..., "content": ...}`). -/
structure ChatMsg where
  role : String
  content : String
deriving DecidableEq

/-- Python `repr` of a string-to-string dict, as produced by the
f-strings of the sources (`{'k': 'v', ...}`). -/
def pyDictRepr (d : ProfMap) : String :=
  "\x7b" ++ String.intercalate ", "
    (d.map (fun p => "\x27" ++ p.1 ++ "\x27: \x27" ++ p.2 ++ "\x27")) ++ "\x7d"

/-- The slice of `st.session_state` that `voice_commands.py` reads and
writes; each field is optional because the handlers guard on membership
(`"messages" in st.session_state`, ...). -/
structure VCState where
  messages : Option (List ChatMsg)
  memory : Option MemoryStore
  current_page : Option String
deriving DecidableEq

namespace VoiceCommands

/-- Names of the handler methods of `VoiceCommands`, used as tags for the
command registry. -/
inductive Cmd where
  | show_help | clear_chat | remember_info | show_memory
  | go_to_dashboard | go_to_settings | go_to_analytics | go_to_chat
  | save_data | export_data | budget_help | investment_help
  | savings_help | expenses_help
deriving DecidableEq

/-- Text returned by `VoiceCommands.show_help`. -/
def showHelpText : String := "
        🎤 **Available Voice Commands:**
        
        **Navigation:**
        - \"Go to dashboard\" - Switch to dashboard
        - \"Go to settings\" - Open settings
        - \"Go to analytics\" - View analytics
        - \"Go to chat\" - Open chat assistant
        
        **Memory Management:**
        - \"Remember [information]\" - Store information
        - \"What do you remember\" - Show stored memories
        - \"Clear\" - Clear chat history
        
        **Financial Help:**
        - \"Budget help\" - Get budgeting advice
        - \"Investment help\" - Get investment guidance
        - \"Savings help\" - Get savings tips
        - \"Expenses help\" - Get expense management advice
        
        **Data Management:**
        - \"Save\" - Save current data
        - \"Export\" - Export financial data
        
        **General:**
        - \"Help\" - Show this help message
        "

/-- Embeds `VoiceCommands.show_help`. -/
def show_help (st : VCState) (_text : String) : VCState × String :=
  (st, showHelpText)

/-- Embeds `VoiceCommands.clear_chat`: empties the chat transcript if the
session has one. -/
def clear_chat (st : VCState) (_text : String) : VCState × String :=
  ({ st with messages := st.messages.map (fun _ => []) }, "✅ Chat history cleared!")

/-- Embeds `VoiceCommands.remember_info`: extract the text after
`remember` with `re.search(r'remember\s+(.+)', text)`; when it matches,
store it under the fixed key `"voice_note"` (if the session has a memory
store) and confirm; otherwise ask the user to specify. -/
def remember_info (st : VCState) (text : String) : VCState × String :=
  match reSearch patRemember text.data with
  | some g =>
    let info := String.mk (pyStripL g)
    let st' :=
      match st.memory with
      | some m => { st with memory := some (m.set "voice_note" info) }
      | none => st
    (st', "✅ Remembered: " ++ info)
  | none => (st, "❌ Please specify what to remember")

/-- Embeds `VoiceCommands.show_memory`. -/
def show_memory (st : VCState) (_text : String) : VCState × String :=
  match st.memory with
  | some m =>
    let md := m.get_all
    if md ≠ [] then (st, "🧠 Stored memories: " ++ pyDictRepr md)
    else (st, "🧠 No memories stored yet")
  | none => (st, "❌ Memory system not available")

/-- Embeds `VoiceCommands.go_to_dashboard`. -/
def go_to_dashboard (st : VCState) (_text : String) : VCState × String :=
  ({ st with current_page := some "Dashboard" }, "✅ Navigated to Dashboard")

/-- Embeds `VoiceCommands.go_to_settings`. -/
def go_to_settings (st : VCState) (_text : String) : VCState × String :=
  ({ st with current_page := some "Settings" }, "✅ Navigated to Settings")

/-- Embeds `VoiceCommands.go_to_analytics`. -/
def go_to_analytics (st : VCState) (_text : String) : VCState × String :=
  ({ st with current_page := some "Financial Analytics" }, "✅ Navigated to Analytics")

/-- Embeds `VoiceCommands.go_to_chat`. -/
def go_to_chat (st : VCState) (_text : String) : VCState × String :=
  ({ st with current_page := some "Chat Assistant" }, "✅ Navigated to Chat Assistant")

/-- Embeds `VoiceCommands.navigate_to` (the `go to ...` fallback). -/
def navigate_to (st : VCState) (text : String) : VCState × String :=
  if pyContains text "dashboard" then go_to_dashboard st text
  else if pyContains text "settings" then go_to_settings st text
  else if pyContains text "analytics" then go_to_analytics st text
  else if pyContains text "chat" then go_to_chat st text
  else (st, "❌ Unknown navigation destination")

/-- Embeds `VoiceCommands.show_info` (the `show ...` fallback). -/
def show_info (st : VCState) (text : String) : VCState × String :=
  if pyContains text "help" then show_help st text
  else if pyContains text "memory" || pyContains text "remember" then show_memory st text
  else (st, "❌ Unknown information request")

/-- Embeds `VoiceCommands.save_data`. -/
def save_data (st : VCState) (_text : String) : VCState × String :=
  (st, "✅ Data saved successfully!")

/-- Embeds `VoiceCommands.export_data`. -/
def export_data (st : VCState) (_text : String) : VCState × String :=
  (st, "✅ Data exported successfully!")

/-- Text returned by `VoiceCommands.budget_help`. -/
def budgetHelpText : String := "
        💰 **Budgeting Tips:**
        
        1. **50/30/20 Rule**: 50% needs, 30% wants, 20% savings
        2. **Track Expenses**: Monitor all spending
        3. **Set Goals**: Define clear financial objectives
        4. **Emergency Fund**: Save 3-6 months of expenses
        5. **Review Regularly**: Check budget monthly
        
        Would you like specific budgeting advice?
        "

/-- Embeds `VoiceCommands.budget_help`. -/
def budget_help (st : VCState) (_text : String) : VCState × String :=
  (st, budgetHelpText)

/-- Text returned by `VoiceCommands.investment_help`. -/
def investmentHelpText : String := "
        📈 **Investment Basics:**
        
        1. **Diversify**: Spread investments across different assets
        2. **Start Early**: Time in market beats timing the market
        3. **Risk Tolerance**: Invest according to your comfort level
        4. **Long-term Focus**: Think 5+ years for investments
        5. **Research**: Understand what you\x27re investing in
        
        Would you like specific investment guidance?
        "

/-- Embeds `VoiceCommands.investment_help`. -/
def investment_help (st : VCState) (_text : String) : VCState × String :=
  (st, investmentHelpText)

/-- Text returned by `VoiceCommands.savings_help`. -/
def savingsHelpText : String := "
        🏦 **Savings Strategies:**
        
        1. **Pay Yourself First**: Save before spending
        2. **Automate**: Set up automatic transfers
        3. **High-Yield Accounts**: Use better interest rates
        4. **Cut Expenses**: Reduce unnecessary spending
        5. **Set Targets**: Have specific savings goals
        
        Would you like specific savings advice?
        "

/-- Embeds `VoiceCommands.savings_help`. -/
def savings_help (st : VCState) (_text : String) : VCState × String :=
  (st, savingsHelpText)

/-- Text returned by `VoiceCommands.expenses_help`. -/
def expensesHelpText : String := "
        💳 **Expense Management:**
        
        1. **Track Everything**: Record all expenses
        2. **Categorize**: Group expenses by type
        3. **Identify Patterns**: Find spending trends
        4. **Cut Unnecessary**: Eliminate wasteful spending
        5. **Negotiate**: Try to reduce bills and subscriptions
        
        Would you like specific expense management tips?
        "

/-- Embeds `VoiceCommands.expenses_help`. -/
def expenses_help (st : VCState) (_text : String) : VCState × String :=
  (st, expensesHelpText)

/-- Maps a registry tag to the handler it names. -/
def run : Cmd → VCState → String → VCState × String
  | Cmd.show_help => show_help
  | Cmd.clear_chat => clear_chat
  | Cmd.remember_info => remember_info
  | Cmd.show_memory => show_memory
  | Cmd.go_to_dashboard => go_to_dashboard
  | Cmd.go_to_settings => go_to_settings
  | Cmd.go_to_analytics => go_to_analytics
  | Cmd.go_to_chat => go_to_chat
  | Cmd.save_data => save_data
  | Cmd.export_data => export_data
  | Cmd.budget_help => budget_help
  | Cmd.investment_help => investment_help
  | Cmd.savings_help => savings_help
  | Cmd.expenses_help => expenses_help

/-- Embeds `self.commands` of `VoiceCommands.__init__`, in the literal
insertion order of the Python dict (CPython preserves it). -/
def commands : List (String × Cmd) :=
  [("help", Cmd.show_help),
   ("clear", Cmd.clear_chat),
   ("remember", Cmd.remember_info),
   ("what do you remember", Cmd.show_memory),
   ("dashboard", Cmd.go_to_dashboard),
   ("settings", Cmd.go_to_settings),
   ("analytics", Cmd.go_to_analytics),
   ("chat", Cmd.go_to_chat),
   ("save", Cmd.save_data),
   ("export", Cmd.export_data),
   ("budget", Cmd.budget_help),
   ("invest", Cmd.investment_help),
   ("savings", Cmd.savings_help),
   ("expenses", Cmd.expenses_help)]

/-- The `for command, func in self.commands.items()` loop of
`process_voice_command`: first keyword contained in the text wins. -/
def dispatchLoop (st : VCState) (text : String) :
    List (String × Cmd) → Option (VCState × String)
  | [] => none
  | (kw, c) :: rest =>
    if pyContains text kw then some (run c st text)
    else dispatchLoop st text rest

/-- Embeds `VoiceCommands.process_voice_command`: lowercase and strip the
transcribed text, scan the registry in order for a contained keyword,
then fall back to the regex checks, and return `None` when nothing
matches. -/
def process_voice_command (st : VCState) (text : String) : Option (VCState × String) :=
  let t := pyStrip (pyLower text)
  match dispatchLoop st t commands with
  | some r => some r
  | none =>
    if (reSearch patRemember t.data).isSome then some (remember_info st t)
    else if (reSearch patGoTo t.data).isSome then some (navigate_to st t)
    else if (reSearch patShow t.data).isSome then some (show_info st t)
    else none

end VoiceCommands

end VoiceCommandsModel

section AppTurnModel

/-- Embeds `SYSTEM_PROMPT` of `prompts.py` (a plain triple-quoted string;
the braces in it are literal text, not interpolations). -/
def SYSTEM_PROMPT : String := "
You are Granite AI, a knowledgeable and friendly financial assistant designed to help users with personal finance, budgeting, and investment basics.

**Your Persona:** \x7bpersona\x7d
**User\x27s Stored Information:** \x7bmemory\x7d

**Your Capabilities:**
- Provide clear, practical financial advice
- Explain complex financial concepts in simple terms
- Help with budgeting strategies and money management
- Offer investment basics and risk assessment
- Answer questions about savings, debt, and financial planning
- Provide educational content about personal finance

**Guidelines:**
1. Keep responses clear, concise, and actionable
2. Adapt your language to the user\x27s persona (Student, Professional, Beginner, Advanced)
3. Use the stored memory to personalize responses when relevant
4. Always emphasize the importance of doing your own research
5. Never provide specific investment recommendations
6. Include practical tips and examples when helpful
7. Be encouraging and supportive in your tone

**Remember:** You\x27re here to educate and guide, not to make financial decisions for users. Always recommend consulting with qualified financial professionals for specific advice.
"

/-- The context f-string assembled in `app.py` before calling
`granite.chat` (lines 166–172; the indentation of the Python source is
part of the literal). -/
def build_context (persona : String) (memory : MemoryStore) : String :=
  SYSTEM_PROMPT ++ "\n                        \n                        User Profile:\n                        - Persona: "
    ++ persona
    ++ "\n                        - Memory Context: "
    ++ pyDictRepr memory.get_all
    ++ "\n                        \n                        Please provide a helpful and accurate response to the user\x27s query."

/-- The Streamlit output calls made during one chat turn, in order. -/
inductive UIEvent where
  | warning_box (s : String)
  | chat_user (s : String)
  | success_box (s : String)
  | error_box (s : String)
  | info_box (s : String)
  | json_box (d : ProfMap)
  | markdown (s : String)
deriving DecidableEq

/-- Result of one chat turn of `app.py`: the memory store, the transcript
`st.session_state.messages`, the UI output, and whether `granite.chat`
was invoked. -/
structure TurnOut where
  memory : MemoryStore
  messages : List ChatMsg
  events : List UIEvent
  model_called : Bool
deriving DecidableEq

/-- Embeds the chat-turn block of `app.py` (lines 130–195): record the
user turn (when the model is ready), then try the three textual
directives in order, and only otherwise call the inference engine
(modelled as the pure function `granite` of the assembled context and the
user message) and apply the response-validation heuristic. -/
def handle_turn (model_ready : Bool) (granite : String → String → String)
    (persona : String) (memory : MemoryStore) (messages : List ChatMsg)
    (prompt : String) : TurnOut :=
  let messages :=
    if !model_ready then messages
    else messages ++ [⟨"user", prompt⟩]
  let evs :=
    if !model_ready then [UIEvent.warning_box "⚠️ Please load the model first using the sidebar button."]
    else [UIEvent.chat_user prompt]
  if pyStartsWith prompt "/remember " then
    -- key_value = prompt.replace("/remember ", "").split("=")
    let key_value := splitCharL '=' (pyReplace prompt "/remember " "").data
    match key_value with
    | [k, v] =>
      let key := String.mk (pyStripL k)
      let value := String.mk (pyStripL v)
      { memory := memory.set key value, messages := messages,
        events := evs ++ [UIEvent.success_box ("✅ Remembered: " ++ key ++ " = " ++ value)],
        model_called := false }
    | _ =>
      { memory := memory, messages := messages,
        events := evs ++ [UIEvent.error_box "❌ Use format: /remember key=value"],
        model_called := false }
  else if pyLower (pyStrip prompt) = "/clear" then
    { memory := memory.clear, messages := messages,
      events := evs ++ [UIEvent.success_box "🧹 Memory cleared!"],
      model_called := false }
  else if pyLower (pyStrip prompt) = "what do you remember?" then
    let memory_data := memory.get_all
    if memory_data ≠ [] then
      { memory := memory, messages := messages,
        events := evs ++ [UIEvent.info_box "🧠 Here\x27s what I remember:", UIEvent.json_box memory_data],
        model_called := false }
    else
      { memory := memory, messages := messages,
        events := evs ++ [UIEvent.info_box "🧠 I don\x27t have any memories stored yet."],
        model_called := false }
  else if !model_ready then
    { memory := memory, messages := messages,
      events := evs ++ [UIEvent.error_box "❌ Model not ready. Please check your HuggingFace token."],
      model_called := false }
  else
    let response := granite (build_context persona memory) prompt
    if pyContains (pyLower response) "error" || pyContains (pyLower response) "apologize"
        || pyContains (pyLower response) "sorry" then
      { memory := memory, messages := messages,
        events := evs ++ [UIEvent.error_box "I encountered an issue generating a response. Please try again or rephrase your question."],
        model_called := true }
    else
      { memory := memory, messages := messages ++ [⟨"assistant", response⟩],
        events := evs ++ [UIEvent.markdown response],
        model_called := true }

/-- Modelled from the words of claim C4 (not from the source): the
remainder of a `"/remember "` directive is obtained by stripping only the
leading prefix, and the stored pair comes from splitting that remainder
on its single `=`. -/
def c4_claimed_pair (prompt : String) : Option (String × String) :=
  let rem := String.mk (prompt.data.drop 10)
  match splitCharL '=' rem.data with
  | [k, v] => some (String.mk (pyStripL k), String.mk (pyStripL v))
  | _ => none

end AppTurnModel

section AListLemmas

/-- In the in-place-update branch of `alistSet`, the search for the
updated key finds the new pair exactly when the old search succeeded. -/
theorem find?_mapSet_self {α : Type} (l : PyDict α) (k : String) (v : α) :
    List.find? (fun p => p.1 = k) (l.map (fun p => if p.1 = k then (k, v) else p))
      = (List.find? (fun p => p.1 = k) l).map (fun _ => (k, v)) := by
  induction l with
  | nil => simp
  | cons a t ih =>
    by_cases h : a.1 = k
    · rw [List.map_cons, if_pos h,
        List.find?_cons_of_pos _ (by simp), List.find?_cons_of_pos _ (by simp [h])]
      simp
    · rw [List.map_cons, if_neg h,
        List.find?_cons_of_neg _ (by simp [h]), List.find?_cons_of_neg _ (by simp [h])]
      exact ih

/-- The in-place-update branch of `alistSet` is invisible to searches for
any other key. -/
theorem find?_mapSet_ne {α : Type} (l : PyDict α) (k k' : String) (v : α)
    (hk : k' ≠ k) :
    List.find? (fun p => p.1 = k') (l.map (fun p => if p.1 = k then (k, v) else p))
      = List.find? (fun p => p.1 = k') l := by
  induction l with
  | nil => simp
  | cons a t ih =>
    by_cases h : a.1 = k
    · rw [List.map_cons, if_pos h,
        List.find?_cons_of_neg _ (by simp [Ne.symm hk]),
        List.find?_cons_of_neg _ (by simp [h, Ne.symm hk])]
      exact ih
    · rw [List.map_cons, if_neg h]
      by_cases h' : a.1 = k'
      · rw [List.find?_cons_of_pos _ (by simp [h']), List.find?_cons_of_pos _ (by simp [h'])]
      · rw [List.find?_cons_of_neg _ (by simp [h']), List.find?_cons_of_neg _ (by simp [h'])]
        exact ih

/-- Appending a fresh pair makes its key findable when it was not before. -/
theorem find?_append_single_none {α : Type} (l : PyDict α) (k : String) (v : α)
    (h : List.find? (fun p => p.1 = k) l = none) :
    List.find? (fun p => p.1 = k) (l ++ [(k, v)]) = some (k, v) := by
  induction l with
  | nil => simp
  | cons a t ih =>
    by_cases ha : a.1 = k
    · rw [List.find?_cons_of_pos _ (by simp [ha])] at h
      exact absurd h (by simp)
    · rw [List.find?_cons_of_neg _ (by simp [ha])] at h
      rw [List.cons_append, List.find?_cons_of_neg _ (by simp [ha])]
      exact ih h

/-- Appending a pair with a different key does not change a search. -/
theorem find?_append_single_ne {α : Type} (l : PyDict α) (k k' : String) (v : α)
    (hk : k' ≠ k) :
    List.find? (fun p => p.1 = k') (l ++ [(k, v)]) = List.find? (fun p => p.1 = k') l := by
  induction l with
  | nil => simp [Ne.symm hk]
  | cons a t ih =>
    by_cases h' : a.1 = k'
    · rw [List.cons_append, List.find?_cons_of_pos _ (by simp [h']),
        List.find?_cons_of_pos _ (by simp [h'])]
    · rw [List.cons_append, List.find?_cons_of_neg _ (by simp [h']),
        List.find?_cons_of_neg _ (by simp [h'])]
      exact ih

/-- Looking up the key just assigned finds the new value. -/
theorem alistGet_set_self {α : Type} (l : PyDict α) (k : String) (v : α) :
    alistGet (alistSet l k v) k = some v := by
  unfold alistGet alistSet
  split
  · rename_i hfound
    rw [find?_mapSet_self]
    cases hf : List.find? (fun p => p.1 = k) l with
    | none => rw [hf] at hfound; simp at hfound
    | some p => simp
  · rename_i hfound
    rw [find?_append_single_none _ _ _ (by
      cases hf : List.find? (fun p => p.1 = k) l with
      | none => rfl
      | some p => rw [hf] at hfound; simp at hfound)]
    simp

/-- Assignment leaves every other key unchanged. -/
theorem alistGet_set_ne {α : Type} (l : PyDict α) (k k' : String) (v : α)
    (h : k' ≠ k) : alistGet (alistSet l k v) k' = alistGet l k' := by
  unfold alistGet alistSet
  split
  · rw [find?_mapSet_ne _ _ _ _ h]
  · rw [find?_append_single_ne _ _ _ _ h]

end AListLemmas

section MemoryStoreLemmas

/-- The profile mapping after `set` is the old mapping with the one key
assigned. -/
theorem MemoryStore.get_all_set (s : MemoryStore) (k v : String) :
    (s.set k v).get_all = alistSet s.get_all k v := by
  unfold MemoryStore.set MemoryStore.get_all MemoryStore.save
  by_cases hp : (alistGet s.data s.profile_id).isSome
  · simp only [hp, if_true]
    rw [alistGet_set_self]
    rfl
  · simp only [hp, Bool.false_eq_true, if_false]
    rw [alistGet_set_self, alistGet_set_self]
    cases hg : alistGet s.data s.profile_id with
    | none => simp
    | some pm => rw [hg] at hp; simp at hp

/-- `set` does not touch the mapping of any other profile. -/
theorem MemoryStore.data_set_ne (s : MemoryStore) (k v q : String)
    (hq : q ≠ s.profile_id) :
    alistGet (s.set k v).data q = alistGet s.data q := by
  unfold MemoryStore.set MemoryStore.save
  by_cases hp : (alistGet s.data s.profile_id).isSome
  · simp only [hp, if_true]
    rw [alistGet_set_ne _ _ _ _ hq]
  · simp only [hp, Bool.false_eq_true, if_false]
    rw [alistGet_set_ne _ _ _ _ hq, alistGet_set_ne _ _ _ _ hq]

/-- After `clear` the profile's mapping reads back empty. -/
theorem MemoryStore.get_all_clear (s : MemoryStore) :
    (s.clear).get_all = [] := by
  unfold MemoryStore.clear MemoryStore.get_all MemoryStore.save
  by_cases hp : (alistGet s.data s.profile_id).isSome
  · simp only [hp, if_true]
    rw [alistGet_set_self]
    rfl
  · simp only [hp, Bool.false_eq_true, if_false]
    cases hg : alistGet s.data s.profile_id with
    | none => simp
    | some pm => rw [hg] at hp; simp at hp

/-- `set` always ends in `save`, so the backing file holds exactly the
new data. -/
theorem MemoryStore.file_set (s : MemoryStore) (k v : String) :
    (s.set k v).file = some (FileContent.wellFormed (s.set k v).data) := by
  unfold MemoryStore.set MemoryStore.save
  simp

/-- Restarting from a well-formed file reconstructs exactly that data. -/
theorem MemoryStore.restart_wellFormed (s : MemoryStore) (d : AllData)
    (h : s.file = some (FileContent.wellFormed d)) :
    s.restart = Except.ok ⟨s.file, s.profile_id, d⟩ := by
  unfold MemoryStore.restart MemoryStore.init MemoryStore.loadFile
  rw [h]
  rfl

end MemoryStoreLemmas

/-- C2 (counterexample): a token issued without an explicit TTL override
does not expire 30 minutes after issuance — `create_access_token` hard
codes `timedelta(minutes=15)` in its default branch, even though the
module-level constant `ACCESS_TOKEN_EXPIRE_MINUTES` is 30. -/
theorem c2_default_ttl_counterexample :
    create_access_token_expire 0 none = 15 ∧
    create_access_token_expire 0 none ≠ 0 + ACCESS_TOKEN_EXPIRE_MINUTES := by
  refine ⟨rfl, ?_⟩
  unfold create_access_token_expire ACCESS_TOKEN_EXPIRE_MINUTES
  decide

/-- C2 (amended): without an explicit override the encoded expiry is
issuance time plus the fixed default TTL of 15 minutes; a truthy
(non-zero) explicit `expires_delta` gives issuance time plus that delta,
while a zero delta is falsy in Python and falls back to the default. -/
theorem c2_token_expiry_amended (now d : Int) :
    create_access_token_expire now none = now + 15 ∧
    (d ≠ 0 → create_access_token_expire now (some d) = now + d) ∧
    create_access_token_expire now (some 0) = now + 15 := by
  refine ⟨rfl, fun hd => ?_, rfl⟩
  simp [create_access_token_expire, hd]

/-- C2 (witness): the amended theorem evaluated at issuance time 100 with
no override and with an explicit 30-minute delta. -/
theorem c2_token_expiry_witness :
    create_access_token_expire 100 none = 100 + 15 ∧
    create_access_token_expire 100 (some 30) = 100 + 30 :=
  ⟨(c2_token_expiry_amended 100 30).1,
   (c2_token_expiry_amended 100 30).2.1 (by decide)⟩

/-- C8: loading the memory store from an absent backing file yields the
empty mapping without an error, while a malformed backing file makes both
the load and the store construction fail with the decode error, which
propagates to the caller instead of being replaced by an empty state. -/
theorem c8_load_missing_vs_malformed :
    MemoryStore.loadFile none = Except.ok [] ∧
    (∀ pid, MemoryStore.init pid none = Except.ok ⟨none, pid, []⟩) ∧
    MemoryStore.loadFile (some FileContent.malformed) = Except.error LoadErr.decodeError ∧
    (∀ pid, MemoryStore.init pid (some FileContent.malformed)
      = Except.error LoadErr.decodeError) :=
  ⟨rfl, fun _ => rfl, rfl, fun _ => rfl⟩

/-- C9: frame property of `set` — after `set k v` the mapping of every
other profile is unchanged, and within the store's own profile every
other key keeps its old binding. -/
theorem c9_set_frame (s : MemoryStore) (k v q k' : String)
    (hq : q ≠ s.profile_id) (hk : k' ≠ k) :
    alistGet (s.set k v).data q = alistGet s.data q ∧
    alistGet ((s.set k v).get_all) k' = alistGet s.get_all k' := by
  refine ⟨MemoryStore.data_set_ne s k v q hq, ?_⟩
  rw [MemoryStore.get_all_set, alistGet_set_ne _ _ _ _ hk]

/-- C9 (witness): the frame property at a concrete two-profile store. -/
theorem c9_set_frame_witness :
    alistGet ((⟨none, "alice", [("alice", [("x", "1")]), ("bob", [("y", "2")])]⟩ :
        MemoryStore).set "k" "v").data "bob"
      = alistGet ([("alice", [("x", "1")]), ("bob", [("y", "2")])] : AllData) "bob" ∧
    alistGet (((⟨none, "alice", [("alice", [("x", "1")]), ("bob", [("y", "2")])]⟩ :
        MemoryStore).set "k" "v").get_all) "x"
      = alistGet ([("x", "1")] : ProfMap) "x" :=
  c9_set_frame ⟨none, "alice", [("alice", [("x", "1")]), ("bob", [("y", "2")])]⟩
    "k" "v" "bob" "x" (by decide) (by decide)

/-- C5: MemoryStore round-trip — starting from any store successfully
constructed from a backing file, `set` followed by `get_all` contains the
new binding, `clear` followed by `get_all` is empty, and both equalities
survive a restart that reloads the store from the backing file, because
`set` (and `clear`, when it acts) persist the full mapping before
returning. -/
theorem c5_memory_roundtrip (pid : String) (file : Option FileContent)
    (k v : String) (s : MemoryStore)
    (hinit : MemoryStore.init pid file = Except.ok s) :
    alistGet ((s.set k v).get_all) k = some v ∧
    (s.clear).get_all = [] ∧
    (∃ s', (s.set k v).restart = Except.ok s' ∧ alistGet (s'.get_all) k = some v) ∧
    (∃ s'', (s.clear).restart = Except.ok s'' ∧ s''.get_all = []) := by
  have hset : alistGet ((s.set k v).get_all) k = some v := by
    rw [MemoryStore.get_all_set, alistGet_set_self]
  -- decompose the construction hypothesis
  unfold MemoryStore.init at hinit
  cases hf : MemoryStore.loadFile file with
  | error e => rw [hf] at hinit; simp [Except.map] at hinit
  | ok d =>
    rw [hf] at hinit
    simp only [Except.map] at hinit
    have hs : s = ⟨file, pid, d⟩ := (Except.ok.inj hinit).symm
    subst hs
    refine ⟨hset, MemoryStore.get_all_clear _, ?_, ?_⟩
    · -- restart after set
      refine ⟨_, MemoryStore.restart_wellFormed _ _ (MemoryStore.file_set _ k v), ?_⟩
      have hpid : (MemoryStore.set ⟨file, pid, d⟩ k v).profile_id = pid := rfl
      show alistGet ((MemoryStore.set ⟨file, pid, d⟩ k v).get_all) k = some v
      exact hset
    · -- restart after clear
      by_cases hp : (alistGet (d : AllData) pid).isSome
      · have hclear :
            MemoryStore.clear ⟨file, pid, d⟩ =
              ⟨some (FileContent.wellFormed (alistSet d pid [])), pid, alistSet d pid []⟩ := by
          unfold MemoryStore.clear MemoryStore.save
          simp [hp]
        rw [hclear]
        refine ⟨_, MemoryStore.restart_wellFormed _ (alistSet d pid []) rfl, ?_⟩
        unfold MemoryStore.get_all
        rw [alistGet_set_self]
        rfl
      · have hclear : MemoryStore.clear ⟨file, pid, d⟩ = ⟨file, pid, d⟩ := by
          unfold MemoryStore.clear
          simp [hp]
        refine ⟨⟨file, pid, d⟩, ?_, ?_⟩
        · rw [hclear]
          unfold MemoryStore.restart MemoryStore.init
          rw [hf]
          rfl
        · unfold MemoryStore.get_all
          cases hg : alistGet (d : AllData) pid with
          | none => rfl
          | some pm => rw [hg] at hp; simp at hp

/-- C5 (witness): the round-trip at profile `"alice"`, an absent backing
file, and the binding `k ↦ v`. -/
theorem c5_memory_roundtrip_witness :
    alistGet (((⟨none, "alice", []⟩ : MemoryStore).set "k" "v").get_all) "k" = some "v" ∧
    ((⟨none, "alice", []⟩ : MemoryStore).clear).get_all = [] ∧
    (∃ s', ((⟨none, "alice", []⟩ : MemoryStore).set "k" "v").restart = Except.ok s' ∧
      alistGet (s'.get_all) "k" = some "v") ∧
    (∃ s'', ((⟨none, "alice", []⟩ : MemoryStore).clear).restart = Except.ok s'' ∧
      s''.get_all = []) :=
  c5_memory_roundtrip "alice" none "k" "v" ⟨none, "alice", []⟩ rfl

set_option maxRecDepth 40000

/-- Every word produced by Python `str.split()` is non-empty. -/
theorem pySplitWs_mem_ne_empty (s : String) (w : String) (hw : w ∈ pySplitWs s) : w ≠ "" := by
  unfold pySplitWs pySplitWsL at hw
  obtain ⟨u, hu, rfl⟩ := List.mem_map.mp hw
  have hne := (List.mem_filter.mp hu).2
  intro hcon
  have hdata : u = [] := by
    have h2 : (String.mk u).data = ("" : String).data := by rw [hcon]
    simpa using h2
  rw [hdata] at hne
  simp at hne

/-- The empty string is falsy. -/
theorem optTruthy_empty : optTruthy (some "") = false := rfl

/-- A non-empty string is truthy. -/
theorem optTruthy_some_ne (s : String) (h : s ≠ "") : optTruthy (some s) = true := by
  simp [optTruthy, h]

/-- C1 (counterexample): for a request with no transport-level credential
and no `Authorization` header, whose access-token cookie is
`"xBearer y"`, the claim says the cookie value is used after stripping a
leading `"Bearer "` prefix — i.e. unchanged, `"xBearer y"` — but
`get_current_user` runs `access_token.replace("Bearer ", "")`, which
removes the non-leading occurrence and uses `"xy"`. -/
theorem c1_cookie_strip_counterexample :
    get_current_user_token none (some "xBearer y") none = Except.ok "xy" ∧
    extract_token_claimed none (some "xBearer y") none = Except.ok "xBearer y" ∧
    ("xy" : String) ≠ "xBearer y" :=
  ⟨rfl, rfl, by decide⟩

/-- C1 (amended): token discovery follows the three-source precedence of
the claim — transport-level credential first, then cookie, then parsed
`Authorization` header, rejecting as unauthenticated when nothing yields
a non-empty string — except that the cookie's value is used after
removing every occurrence of `"Bearer "` (not just a leading prefix), and
a cookie whose value becomes empty after the removal falls through to the
header. -/
theorem c1_extract_token_amended (td c h : Option String) :
    get_current_user_token td c h = extract_token_amended td c h := by
  have hsplit : ∀ s a b, pySplitWs s = [a, b] → (b ≠ "") := fun s a b hp =>
    pySplitWs_mem_ne_empty s b (by rw [hp]; simp)
  unfold get_current_user_token extract_token_amended
  by_cases htd : optTruthy td = true
  · simp [htd]
  · rw [Bool.not_eq_true] at htd
    by_cases hc : optTruthy c = true
    · by_cases hr : pyReplace (c.getD "") "Bearer " "" = ""
      · simp only [htd, hc, hr, optTruthy_empty, Bool.not_false, Bool.and_self, Bool.true_and,
          if_true, ne_eq, not_true_eq_false, if_false]
        cases h with
        | none => simp [optTruthy_empty]
        | some hdr =>
          simp only [Option.isSome_some, Bool.and_true, Bool.not_false, if_true]
          cases hsp : pySplitWs (pyStrip hdr) with
          | nil => simp [hsp]
          | cons a rest =>
            cases rest with
            | nil => simp [hsp]
            | cons b rest2 =>
              cases rest2 with
              | nil =>
                by_cases hlow : pyLower a = "bearer"
                · have hb := hsplit _ _ _ hsp
                  simp [hsp, hlow, optTruthy_some_ne _ hb]
                · simp [hsp, hlow]
              | cons x xs => simp [hsp]
      · simp [htd, hc, hr, optTruthy_some_ne _ hr]
    · rw [Bool.not_eq_true] at hc
      simp only [htd, hc, Bool.not_false, Bool.and_false, if_false, Bool.true_and]
      cases h with
      | none => simp [htd]
      | some hdr =>
        simp only [Option.isSome_some, Bool.and_true, if_true]
        cases hsp : pySplitWs (pyStrip hdr) with
        | nil => simp [hsp, htd]
        | cons a rest =>
          cases rest with
          | nil => simp [hsp, htd]
          | cons b rest2 =>
            cases rest2 with
            | nil =>
              by_cases hlow : pyLower a = "bearer"
              · have hb := hsplit _ _ _ hsp
                simp [hsp, hlow, optTruthy_some_ne _ hb, htd]
              · simp [hsp, hlow, htd]
            | cons x xs => simp [hsp, htd]

/-- An empty session state for concrete evaluations. -/
def vcState0 : VCState := ⟨none, none, none⟩

/-- A fresh store for profile `"alice"` with no backing file. -/
def memStore0 : MemoryStore := ⟨none, "alice", []⟩

/-- An inference stub whose reply trips the failure heuristic. -/
def granite_fail0 : String → String → String := fun _ _ => "Sorry, something went wrong"

/-- An inference stub whose reply passes the failure heuristic. -/
def granite_ok0 : String → String → String := fun _ _ => "A written budget plan helps"

/-- C4 (counterexample): the claim derives the stored pair from the
remainder after stripping the leading `"/remember "` prefix, which for
the input `"/remember a=b /remember c"` would be `("a", "b /remember c")`;
the code instead runs `prompt.replace("/remember ", "")`, which also
deletes the second occurrence and stores `("a", "b c")`. -/
theorem c4_remember_directive_counterexample :
    c4_claimed_pair "/remember a=b /remember c" = some ("a", "b /remember c") ∧
    (handle_turn true granite_ok0 "Student" memStore0 []
        "/remember a=b /remember c").memory
      = memStore0.set "a" "b c" ∧
    ("b c" : String) ≠ "b /remember c" := by
  refine ⟨by decide, by decide, by decide⟩

/-- C4 (amended): for every chat input starting with `"/remember "`, let
the remainder be the input with every occurrence of `"/remember "`
removed (Python `str.replace`, not just the leading prefix).  If the
remainder does not contain exactly one `=`, the turn yields the usage
error and the memory store (data and backing file) is completely
unchanged; if it contains exactly one `=`, the two `=`-separated parts
are stripped and stored as the key/value pair. -/
theorem c4_remember_directive_amended (mr : Bool) (g : String → String → String)
    (persona : String) (mem : MemoryStore) (msgs : List ChatMsg) (prompt : String)
    (hpre : pyStartsWith prompt "/remember " = true) :
    ((pyReplace prompt "/remember " "").data.count '=' ≠ 1 →
      (handle_turn mr g persona mem msgs prompt).memory = mem ∧
      UIEvent.error_box "❌ Use format: /remember key=value"
        ∈ (handle_turn mr g persona mem msgs prompt).events) ∧
    ((pyReplace prompt "/remember " "").data.count '=' = 1 →
      ∃ k v, splitCharL '=' (pyReplace prompt "/remember " "").data = [k, v] ∧
        (handle_turn mr g persona mem msgs prompt).memory
          = mem.set (String.mk (pyStripL k)) (String.mk (pyStripL v)) ∧
        UIEvent.success_box ("✅ Remembered: " ++ String.mk (pyStripL k) ++ " = "
            ++ String.mk (pyStripL v))
          ∈ (handle_turn mr g persona mem msgs prompt).events) := by
  have hlen := splitCharL_length '=' (pyReplace prompt "/remember " "").data
  constructor
  · intro hcount
    cases hsp : splitCharL '=' (pyReplace prompt "/remember " "").data with
    | nil => rw [hsp] at hlen; simp at hlen
    | cons k rest =>
      cases rest with
      | nil =>
        rw [hsp] at hlen
        simp only [List.length_cons, List.length_nil] at hlen
        simp only [handle_turn, hpre, if_true, hsp]
        constructor
        · trivial
        · simp
      | cons v rest2 =>
        cases rest2 with
        | nil =>
          rw [hsp] at hlen
          simp only [List.length_cons, List.length_nil] at hlen
          omega
        | cons w rest3 =>
          simp only [handle_turn, hpre, if_true, hsp]
          constructor
          · trivial
          · simp
  · intro hcount
    cases hsp : splitCharL '=' (pyReplace prompt "/remember " "").data with
    | nil => rw [hsp] at hlen; simp at hlen
    | cons k rest =>
      cases rest with
      | nil => rw [hsp] at hlen; simp at hlen; omega
      | cons v rest2 =>
        cases rest2 with
        | nil =>
          refine ⟨k, v, rfl, ?_, ?_⟩
          · simp only [handle_turn, hpre, if_true, hsp]
          · simp only [handle_turn, hpre, if_true, hsp]
            simp
        | cons w rest3 =>
          rw [hsp] at hlen
          simp only [List.length_cons] at hlen
          omega

/-- C4 (witness): the malformed directive `"/remember onlyonevalue"`
leaves the store untouched and surfaces the usage error. -/
theorem c4_remember_directive_witness :
    (handle_turn true granite_ok0 "Student" memStore0 [] "/remember onlyonevalue").memory
      = memStore0 ∧
    UIEvent.error_box "❌ Use format: /remember key=value"
      ∈ (handle_turn true granite_ok0 "Student" memStore0 [] "/remember onlyonevalue").events :=
  (c4_remember_directive_amended true granite_ok0 "Student" memStore0 []
    "/remember onlyonevalue" (by decide)).1 (by decide)

/-- C6: every chat input matched by one of the three local directives
(the `"/remember "` prefix, the exact trimmed case-insensitive
`"/clear"`, or the exact trimmed case-insensitive
`"what do you remember?"`) is answered locally — the inference engine is
never invoked; in particular `"/remember budget=3000"` stores
`budget ↦ 3000` and surfaces a confirmation, with no model call. -/
theorem c6_directive_local (mr : Bool) (g : String → String → String)
    (persona : String) (mem : MemoryStore) (msgs : List ChatMsg) (prompt : String)
    (hdir : pyStartsWith prompt "/remember " = true ∨
      pyLower (pyStrip prompt) = "/clear" ∨
      pyLower (pyStrip prompt) = "what do you remember?") :
    (handle_turn mr g persona mem msgs prompt).model_called = false ∧
    (prompt = "/remember budget=3000" →
      alistGet ((handle_turn mr g persona mem msgs prompt).memory).get_all "budget"
        = some "3000" ∧
      UIEvent.success_box "✅ Remembered: budget = 3000"
        ∈ (handle_turn mr g persona mem msgs prompt).events) := by
  constructor
  · by_cases hpre : pyStartsWith prompt "/remember " = true
    · simp only [handle_turn, hpre, if_true]
      split
      · rfl
      · rfl
    · rw [Bool.not_eq_true] at hpre
      rcases hdir with h | h | h
      · rw [h] at hpre; exact absurd hpre (by simp)
      · simp only [handle_turn, hpre, Bool.false_eq_true, if_false, h, if_true]
      · simp only [handle_turn, hpre, Bool.false_eq_true, if_false, h]
        repeat' split
        all_goals try rfl
        all_goals exact absurd trivial (by assumption)
  · intro hp
    subst hp
    have hmem : (handle_turn mr g persona mem msgs "/remember budget=3000").memory
        = mem.set "budget" "3000" := rfl
    have hev : (handle_turn mr g persona mem msgs "/remember budget=3000").events
        = (if !mr then [UIEvent.warning_box "⚠️ Please load the model first using the sidebar button."]
           else [UIEvent.chat_user "/remember budget=3000"])
          ++ [UIEvent.success_box "✅ Remembered: budget = 3000"] := rfl
    constructor
    · rw [hmem, MemoryStore.get_all_set, alistGet_set_self]
    · rw [hev]
      simp

/-- C6 (witness): the particular directive turn `"/remember budget=3000"`
on a fresh store makes no model call, stores the pair, and confirms. -/
theorem c6_directive_local_witness :
    (handle_turn true granite_ok0 "Student" memStore0 [] "/remember budget=3000").model_called
      = false ∧
    alistGet ((handle_turn true granite_ok0 "Student" memStore0 []
        "/remember budget=3000").memory).get_all "budget" = some "3000" ∧
    UIEvent.success_box "✅ Remembered: budget = 3000"
      ∈ (handle_turn true granite_ok0 "Student" memStore0 [] "/remember budget=3000").events := by
  have h := c6_directive_local true granite_ok0 "Student" memStore0 []
    "/remember budget=3000" (Or.inl (by decide))
  exact ⟨h.1, (h.2 rfl).1, (h.2 rfl).2⟩

/-- C7: for a non-directive turn with the model loaded, the engine is
called; if its reply contains `"error"`, `"apologize"` or `"sorry"`
case-insensitively, only the generic retry message is surfaced and the
raw reply is not appended to the transcript; otherwise the raw reply is
shown and appended as the assistant turn. -/
theorem c7_response_validation (g : String → String → String) (persona : String)
    (mem : MemoryStore) (msgs : List ChatMsg) (prompt : String)
    (hnd1 : pyStartsWith prompt "/remember " = false)
    (hnd2 : pyLower (pyStrip prompt) ≠ "/clear")
    (hnd3 : pyLower (pyStrip prompt) ≠ "what do you remember?") :
    (handle_turn true g persona mem msgs prompt).model_called = true ∧
    ((pyContains (pyLower (g (build_context persona mem) prompt)) "error"
        || pyContains (pyLower (g (build_context persona mem) prompt)) "apologize"
        || pyContains (pyLower (g (build_context persona mem) prompt)) "sorry") = true →
      (handle_turn true g persona mem msgs prompt).events
        = [UIEvent.chat_user prompt,
           UIEvent.error_box "I encountered an issue generating a response. Please try again or rephrase your question."] ∧
      (handle_turn true g persona mem msgs prompt).messages
        = msgs ++ [⟨"user", prompt⟩]) ∧
    ((pyContains (pyLower (g (build_context persona mem) prompt)) "error"
        || pyContains (pyLower (g (build_context persona mem) prompt)) "apologize"
        || pyContains (pyLower (g (build_context persona mem) prompt)) "sorry") = false →
      (handle_turn true g persona mem msgs prompt).events
        = [UIEvent.chat_user prompt, UIEvent.markdown (g (build_context persona mem) prompt)] ∧
      (handle_turn true g persona mem msgs prompt).messages
        = msgs ++ [⟨"user", prompt⟩, ⟨"assistant", g (build_context persona mem) prompt⟩]) := by
  simp only [handle_turn, hnd1, Bool.false_eq_true, if_false, hnd2, hnd3, Bool.not_true,
    Bool.not_false]
  refine ⟨by split <;> rfl, fun hfail => ?_, fun hok => ?_⟩
  · rw [if_pos hfail]
    exact ⟨rfl, rfl⟩
  · rw [if_neg (by rw [hok]; exact Bool.false_ne_true)]
    exact ⟨rfl, by simp⟩

/-- C7 (witness): on the non-directive turn `"How to save?"`, a reply
containing `"Sorry"` is replaced by the generic retry message and kept
out of the transcript. -/
theorem c7_response_validation_witness :
    (handle_turn true granite_fail0 "Student" memStore0 [] "How to save?").events
      = [UIEvent.chat_user "How to save?",
         UIEvent.error_box "I encountered an issue generating a response. Please try again or rephrase your question."] ∧
    (handle_turn true granite_fail0 "Student" memStore0 [] "How to save?").messages
      = [⟨"user", "How to save?"⟩] :=
  (c7_response_validation granite_fail0 "Student" memStore0 [] "How to save?"
    (by decide) (by decide) (by decide)).2.1 (by decide)

/-- The registry loop of `process_voice_command` returns the handler of
the first registry entry whose keyword is contained in the text. -/
theorem dispatchLoop_eq_find (st : VCState) (text : String)
    (l : List (String × VoiceCommands.Cmd)) :
    VoiceCommands.dispatchLoop st text l
      = (l.find? (fun p => pyContains text p.1)).map
          (fun p => VoiceCommands.run p.2 st text) := by
  induction l with
  | nil => rfl
  | cons a t ih =>
    obtain ⟨kw, c⟩ := a
    by_cases h : pyContains text kw = true
    · rw [List.find?_cons_of_pos _ (by simpa using h)]
      simp [VoiceCommands.dispatchLoop, h]
    · rw [List.find?_cons_of_neg _ (by simpa using h)]
      rw [Bool.not_eq_true] at h
      simp only [VoiceCommands.dispatchLoop, h, Bool.false_eq_true, if_false]
      exact ih

/-- C3: for every utterance whose lowercased, stripped form contains at
least one registry keyword as a substring, `process_voice_command`
invokes the handler of the keyword appearing earliest in the fixed
registry iteration order (`help`, `clear`, `remember`, ...), regardless
of where the keywords occur in the utterance; matching is substring
containment. -/
theorem c3_registry_order (st : VCState) (text : String)
    (h : ∃ p ∈ VoiceCommands.commands,
      pyContains (pyStrip (pyLower text)) p.1 = true) :
    ∃ p, VoiceCommands.commands.find?
        (fun q => pyContains (pyStrip (pyLower text)) q.1) = some p ∧
      p ∈ VoiceCommands.commands ∧
      VoiceCommands.process_voice_command st text
        = some (VoiceCommands.run p.2 st (pyStrip (pyLower text))) := by
  have hfind : (VoiceCommands.commands.find?
      (fun q => pyContains (pyStrip (pyLower text)) q.1)).isSome :=
    List.find?_isSome.mpr h
  obtain ⟨p, hp⟩ := Option.isSome_iff_exists.mp hfind
  refine ⟨p, hp, List.mem_of_find?_eq_some hp, ?_⟩
  simp only [VoiceCommands.process_voice_command, dispatchLoop_eq_find, hp, Option.map_some]
  rfl

/-- C3 (witness): the utterance `"remember help me budget"` contains the
keywords `help`, `remember` and `budget`; the one checked earliest in the
registry order is `help`, so the help handler answers. -/
theorem c3_registry_order_witness :
    VoiceCommands.process_voice_command vcState0 "remember help me budget"
      = some (VoiceCommands.run VoiceCommands.Cmd.show_help vcState0
          "remember help me budget") := by
  obtain ⟨p, hfind, hmem, heq⟩ :=
    c3_registry_order vcState0 "remember help me budget" (by decide)
  have hval : VoiceCommands.commands.find?
      (fun q => pyContains (pyStrip (pyLower "remember help me budget")) q.1)
        = some ("help", VoiceCommands.Cmd.show_help) := by decide
  rw [hfind] at hval
  have hp : p = ("help", VoiceCommands.Cmd.show_help) := Option.some.inj hval
  rw [hp] at heq
  have ht : pyStrip (pyLower "remember help me budget") = "remember help me budget" := by decide
  rw [ht] at heq
  exact heq

/-- C10: a voice input whose lowercased, trimmed form is exactly
`"what do you remember"` is dispatched to `remember_info` (the registry
entry `remember` is checked before `what do you remember` and is a
substring), whose regex `remember\s+(.+)` finds no trailing content, so
the reply is the "please specify" error and not the stored-memory
display; the session state is unchanged. -/
theorem c10_remember_precedence (st : VCState) (text : String)
    (h : pyStrip (pyLower text) = "what do you remember") :
    VoiceCommands.process_voice_command st text
      = some (st, "❌ Please specify what to remember") := by
  unfold VoiceCommands.process_voice_command
  rw [h]
  rfl

/-- C10 (witness): the theorem applied to the concrete voice input
`"What do you remember "`. -/
theorem c10_remember_precedence_witness :
    VoiceCommands.process_voice_command vcState0 "What do you remember "
      = some (vcState0, "❌ Please specify what to remember") :=
  c10_remember_precedence vcState0 "What do you remember " (by decide)
